import Mathlib

/-!
Verification of the slow-learner prediction dashboard (app.py).

The program has three logical pieces:
  * `load_artifacts` — loads a scaler and a classifier from disk, returning
    `(None, None)` on any failure and reporting an error message;
  * `predict_slow_learner` — applies the scaler and classifier to a raw
    feature vector, returning `(None, None)` when either artifact is null;
  * `get_remedial_suggestions` — a pure rule cascade producing an ordered
    list of advisory strings from the prediction label, the probability and
    four of the raw features.

Numbers are modelled by `ℚ` (the Python floats carry exact decimal inputs
here and every comparison in the code is against an integer threshold), the
prediction label by `ℤ`, and the opaque scaler/classifier collaborators by
records of functions.
-/

namespace SlowLearner

/-- Round a rational to the nearest integer, ties to even — the rounding
performed by Python fixed-point float formatting for representable values. -/
def roundHalfEven (x : ℚ) : ℤ :=
  let f := ⌊x⌋
  let r := x - f
  if r < 1/2 then f
  else if 1/2 < r then f + 1
  else if f % 2 = 0 then f else f + 1

/-- Left-pad a natural below 100 to two digits. -/
def padTwo (n : ℕ) : String :=
  if n < 10 then "0" ++ toString n else toString n

/-- Python `f"{p:.2%}"` for a probability `p ∈ [0, 1]`: multiply by 100,
render with exactly two digits after the decimal point, append `%`. -/
def formatPercent2 (p : ℚ) : String :=
  let n := (roundHalfEven (p * 10000)).toNat
  toString (n / 100) ++ "." ++ padTwo (n % 100) ++ "%"

/-- Modelled from the spec (§8): the same percentage rendered with exactly
ONE digit after the decimal point, the format the spec claims the headline
uses (example given there: `73.4%` for probability 0.734). The source is
the authority for what the headline actually does; this definition exists
only to compare the spec wording against the source. -/
def specFormatPercent1 (p : ℚ) : String :=
  let n := (roundHalfEven (p * 1000)).toNat
  toString (n / 10) ++ "." ++ toString (n % 10) ++ "%"

/-- Fixed prefix of the support-needed headline (app.py line 56). -/
def headlinePrefix : String :=
  "**Student identified as potentially needing support (Probability: "

/-- The f-string of app.py line 56: prefix, probability as `.2%`, suffix. -/
def supportHeadline (probability : ℚ) : String :=
  headlinePrefix ++ formatPercent2 probability ++ ")**"

/-- Modelled from the spec: the headline as the spec describes it, with the
probability at one decimal place. -/
def specSupportHeadline (probability : ℚ) : String :=
  headlinePrefix ++ specFormatPercent1 probability ++ ")**"

/-- The fixed lines following the headline in the preamble (lines 57–65):
separator, actions header, six fixed actions, observations header. -/
def preambleTail : List String :=
  [ "---",
    "**Recommended Actions:**",
    "* Schedule a one-on-one meeting to discuss challenges and learning style.",
    "* Provide simplified explanations and break down complex topics.",
    "* Offer extra practice exercises tailored to weak areas.",
    "* Utilize visual aids and hands-on activities.",
    "* Encourage questions in a supportive environment.",
    "* Recommend peer tutoring or study groups.",
    "\n**Observations & Targeted Suggestions:**" ]

/-- The preamble appended first under `prediction == 1` (lines 56–65):
headline, then the fixed tail. -/
def preambleBlock (probability : ℚ) : List String :=
  supportHeadline probability :: preambleTail

/-- Lines appended when `standardized_test_score < 45` (lines 67–70). -/
def scoreObsBlock : List String :=
  [ "* *Observation:* Low Standardized Test Score.",
    "    * *Suggestion:* Focus on foundational concepts for test topics." ]

/-- Lines appended when `average_grade < 70` (lines 71–75). -/
def gradeObsBlock : List String :=
  [ "* *Observation:* Low Average Grade.",
    "    * *Suggestion:* Review recent assignments for weaknesses.",
    "    * *Suggestion:* Offer re-assessment or extra credit opportunities." ]

/-- Lines appended when `attendance_percentage < 85` (lines 76–79). -/
def attendanceObsBlock : List String :=
  [ "* *Observation:* Low Attendance.",
    "    * *Suggestion:* Discuss barriers to attendance." ]

/-- Lines appended when `participation_rating <= 2` (lines 80–84). -/
def participationObsBlock : List String :=
  [ "* *Observation:* Low Class Participation.",
    "    * *Suggestion:* Create low-pressure participation opportunities.",
    "    * *Suggestion:* Reinforce participation attempts positively." ]

/-- The fallback line appended when no specific threshold triggered (line 86). -/
def fallbackLine : String :=
  "* No specific low metrics triggered; focus on general strategies."

/-- The closing separator and follow-up line (lines 87–88). -/
def closingBlock : List String :=
  [ "\n---",
    "**Follow Up:** Monitor progress and adjust strategies as needed." ]

/-- Direct translation of `get_remedial_suggestions` (app.py lines 53–89):
the mutable `suggestions` list and the `triggered_specific` flag are threaded
through `let` rebindings exactly as the Python statements update them. -/
def get_remedial_suggestions (prediction : ℤ) (probability : ℚ)
    (standardized_test_score average_grade attendance_percentage
     participation_rating : ℚ) : List String :=
  if prediction = 1 then
    let suggestions := preambleBlock probability
    let triggered_specific := false
    let (suggestions, triggered_specific) :=
      if standardized_test_score < 45 then (suggestions ++ scoreObsBlock, true)
      else (suggestions, triggered_specific)
    let (suggestions, triggered_specific) :=
      if average_grade < 70 then (suggestions ++ gradeObsBlock, true)
      else (suggestions, triggered_specific)
    let (suggestions, triggered_specific) :=
      if attendance_percentage < 85 then (suggestions ++ attendanceObsBlock, true)
      else (suggestions, triggered_specific)
    let (suggestions, triggered_specific) :=
      if participation_rating ≤ 2 then (suggestions ++ participationObsBlock, true)
      else (suggestions, triggered_specific)
    let suggestions :=
      if !triggered_specific then suggestions ++ [fallbackLine] else suggestions
    suggestions ++ closingBlock
  else []

/-- The five raw feature fields in the fixed `FEATURE_NAMES` order
(app.py line 20). -/
structure FeatureVector where
  standardized_test_score : ℚ
  average_grade : ℚ
  attendance_percentage : ℚ
  times_late : ℚ
  participation_rating : ℚ

/-- The single DataFrame row built on app.py line 45: the feature values in
`FEATURE_NAMES` order. -/
def FeatureVector.toRow (d : FeatureVector) : List ℚ :=
  [ d.standardized_test_score, d.average_grade, d.attendance_percentage,
    d.times_late, d.participation_rating ]

/-- Opaque scaler collaborator: `transform` maps the raw row to a scaled row. -/
structure Scaler where
  transform : List ℚ → List ℚ

/-- Opaque classifier collaborator: `predict` gives the label of the single
row, `predict_proba` gives the class-probability row `[p0, p1]`. -/
structure Model where
  predict : List ℚ → ℤ
  predict_proba : List ℚ → List ℚ

/-- Direct translation of `predict_slow_learner` (app.py lines 42–51): null
check on the artifacts, then scale, then classify; `[0][1]` on the
probability matrix picks index 1 of the single row. The
`warnings.catch_warnings` block has no observable effect on the returned
values and is not modelled. -/
def predict_slow_learner (data : FeatureVector) (scaler_obj : Option Scaler)
    (model_obj : Option Model) : Option ℤ × Option ℚ :=
  match scaler_obj, model_obj with
  | none, _ => (none, none)
  | _, none => (none, none)
  | some sc, some m =>
    let input_data := data.toRow
    let input_data_scaled := sc.transform input_data
    let prediction := m.predict input_data_scaled
    let probability := (m.predict_proba input_data_scaled).getD 1 0
    (some prediction, some probability)

/-- Outcome of one `joblib.load` call: a value, a `FileNotFoundError`, or
some other exception carrying a message. -/
inductive JoblibOutcome (α : Type) where
  | ok (value : α)
  | fileNotFound
  | failure (message : String)

/-- The error condition reported through `st.error` by `load_artifacts`:
either the missing-file message or the generic loading-error message. -/
inductive LoadSignal where
  | missingArtifact (message : String)
  | corruptArtifact (message : String)
deriving DecidableEq

/-- `SCALER_FILENAME` (app.py line 18). -/
def SCALER_FILENAME : String := "scaler.joblib"

/-- `MODEL_FILENAME` (app.py line 19). -/
def MODEL_FILENAME : String := "random_forest_model.joblib"

/-- The message of the `FileNotFoundError` handler (app.py line 30),
naming both expected filenames. -/
def missingMessage : String :=
  "Error: Could not find \x27" ++ SCALER_FILENAME ++ "\x27 or \x27" ++
    MODEL_FILENAME ++ "\x27. Ensure they are in the app directory."

/-- Direct translation of `load_artifacts` (app.py lines 23–34). The two
`joblib.load` calls sit in one `try`: the scaler loads first, and the first
exception raised selects the handler — `FileNotFoundError` gives the
missing-artifact message, any other exception gives the loading-error
message with the cause. Both handlers return `(None, None)`. -/
def load_artifacts (scalerLoad : JoblibOutcome Scaler)
    (modelLoad : JoblibOutcome Model) :
    (Option Scaler × Option Model) × Option LoadSignal :=
  match scalerLoad with
  | .fileNotFound => ((none, none), some (.missingArtifact missingMessage))
  | .failure e =>
      ((none, none), some (.corruptArtifact ("Error loading artifacts: " ++ e)))
  | .ok s =>
    match modelLoad with
    | .fileNotFound => ((none, none), some (.missingArtifact missingMessage))
    | .failure e =>
        ((none, none), some (.corruptArtifact ("Error loading artifacts: " ++ e)))
    | .ok m => ((some s, some m), none)

/-! ### Helper lemmas -/

/-- `roundHalfEven` is the identity on integers. -/
lemma roundHalfEven_int (n : ℤ) : roundHalfEven (n : ℚ) = n := by
  unfold roundHalfEven
  norm_num

/-- The headline always starts with two asterisk characters. -/
lemma supportHeadline_take_two (p : ℚ) :
    (supportHeadline p).data.take 2 = [Char.ofNat 42, Char.ofNat 42] := by
  unfold supportHeadline
  rw [String.data_append, String.data_append, List.append_assoc,
    List.take_append_of_le_length (by decide)]
  decide

/-- The headline differs from every string not starting with two asterisks. -/
lemma supportHeadline_ne (p : ℚ) (s : String)
    (h : s.data.take 2 ≠ [Char.ofNat 42, Char.ofNat 42]) :
    supportHeadline p ≠ s :=
  fun he => h (he ▸ supportHeadline_take_two p)

/-- Counting any non-headline string in the preamble reduces to its tail. -/
lemma count_preambleBlock (p : ℚ) (s : String) (hne : s ≠ supportHeadline p) :
    (preambleBlock p).count s = preambleTail.count s := by
  simp [preambleBlock, List.count_cons, hne]

/-- Normal form of the advisory cascade for label 1: the preamble, then the
four optional observation blocks in their fixed order, then the fallback
line exactly when no threshold triggered, then the closing block. -/
lemma get_remedial_suggestions_one (p s g a pr : ℚ) :
    get_remedial_suggestions 1 p s g a pr =
      preambleBlock p
      ++ (if s < 45 then scoreObsBlock else [])
      ++ (if g < 70 then gradeObsBlock else [])
      ++ (if a < 85 then attendanceObsBlock else [])
      ++ (if pr ≤ 2 then participationObsBlock else [])
      ++ (if s < 45 ∨ g < 70 ∨ a < 85 ∨ pr ≤ 2 then [] else [fallbackLine])
      ++ closingBlock := by
  unfold get_remedial_suggestions
  split_ifs <;> simp_all
  obtain h | h | h | h := ‹s < 45 ∨ g < 70 ∨ a < 85 ∨ pr ≤ 2› <;> linarith

/-! ### Claim theorems -/

/-- C1 counterexample: at probability 367/500 = 0.734 the advisory list for
label 1 begins with the headline, but that headline renders the probability
as `73.40%` — two decimal places — and differs from the one-decimal
rendering `73.4%` the spec describes. -/
theorem C1_counterexample :
    (get_remedial_suggestions 1 (367/500) 50 90 90 3).head? =
        some (supportHeadline (367/500))
    ∧ supportHeadline (367/500) =
        "**Student identified as potentially needing support (Probability: 73.40%)**"
    ∧ specSupportHeadline (367/500) =
        "**Student identified as potentially needing support (Probability: 73.4%)**"
    ∧ supportHeadline (367/500) ≠ specSupportHeadline (367/500) := by
  have h2 : supportHeadline (367/500) =
      "**Student identified as potentially needing support (Probability: 73.40%)**" := by
    have h : ((367:ℚ)/500 * 10000) = ((7340 : ℤ) : ℚ) := by norm_num
    unfold supportHeadline formatPercent2
    rw [h, roundHalfEven_int]
    rfl
  have h3 : specSupportHeadline (367/500) =
      "**Student identified as potentially needing support (Probability: 73.4%)**" := by
    have h : ((367:ℚ)/500 * 1000) = ((734 : ℤ) : ℚ) := by norm_num
    unfold specSupportHeadline specFormatPercent1
    rw [h, roundHalfEven_int]
    rfl
  refine ⟨?_, h2, h3, ?_⟩
  · rw [get_remedial_suggestions_one]
    rfl
  · rw [h2, h3]
    decide

/-- C1 amended: for every label-1 input the advisory list begins with the
support-needed headline, in which the probability is formatted as a
percentage with exactly TWO decimal places (the Python `.2%` format); the
second conjunct exhibits the two-decimal rendering at probability 0.734. -/
theorem C1_amended_headline :
    (∀ p s g a pr : ℚ,
      (get_remedial_suggestions 1 p s g a pr).head? =
        some (supportHeadline p))
    ∧ supportHeadline (367/500) = headlinePrefix ++ "73.40%" ++ ")**" := by
  constructor
  · intro p s g a pr
    rw [get_remedial_suggestions_one]
    rfl
  · have h : ((367:ℚ)/500 * 10000) = ((7340 : ℤ) : ℚ) := by norm_num
    unfold supportHeadline formatPercent2
    rw [h, roundHalfEven_int]
    rfl

/-- Probe scaler for C2: the identity transform, so whatever reaches the
classifier is the raw feature row. -/
def probeScaler : Scaler := ⟨fun v => v⟩

/-- Probe classifier for C2: labels every row 1 and reports a class-1
probability equal to the first feature divided by 200, exposing the value
the scaler passed through. -/
def probeModel : Model :=
  ⟨fun _ => 1, fun v => [1 - v.getD 0 0 / 200, v.getD 0 0 / 200]⟩

/-- C2 counterexample: a score of 150 lies outside the declared 0–100
range, yet `predict_slow_learner` performs no validation: it hands the raw
row to the scaler and classifier and returns an ordinary prediction whose
probability 150/200 = 3/4 was computed from the out-of-range value. -/
theorem C2_counterexample :
    ¬ ((150 : ℚ) ≤ 100)
    ∧ predict_slow_learner ⟨150, 50, 90, 0, 3⟩ (some probeScaler)
        (some probeModel) = (some 1, some (3/4)) := by
  refine ⟨by norm_num, ?_⟩
  simp [predict_slow_learner, probeScaler, probeModel, FeatureVector.toRow]
  norm_num

/-- C2 amended: `predict_slow_learner` performs no range validation at all:
whenever both artifacts are non-null it applies the scaler to the raw
feature row (in range or not) and returns the classifier outputs on the
scaled row. -/
theorem C2_amended_no_validation (data : FeatureVector) (sc : Scaler)
    (m : Model) :
    predict_slow_learner data (some sc) (some m) =
      (some (m.predict (sc.transform data.toRow)),
        some ((m.predict_proba (sc.transform data.toRow)).getD 1 0)) := rfl

/-- C3: for every prediction label not equal to 1 (in particular label 0)
and every probability and feature values, `get_remedial_suggestions` returns
the empty list. -/
theorem C3_label_ne_one_empty (prediction : ℤ) (p s g a pr : ℚ)
    (h : prediction ≠ 1) :
    get_remedial_suggestions prediction p s g a pr = [] := by
  unfold get_remedial_suggestions
  simp [h]

/-- C3 witness: label 0 yields the empty advisory list. -/
theorem C3_witness :
    (0 : ℤ) ≠ 1 ∧ get_remedial_suggestions 0 (1/2) 90 90 90 5 = [] :=
  ⟨by decide, C3_label_ne_one_empty 0 (1/2) 90 90 90 5 (by decide)⟩

/-- C4: for label 1 the four specific observations are evaluated
independently of each other and emitted in the fixed order score, grade,
attendance, participation (first conjunct: the full normal form); in
particular with score 30, grade 60, attendance 80 and participation 1 all
four observation blocks appear in that order between the preamble and the
closing block, with no fallback line (second conjunct). -/
theorem C4_all_thresholds :
    (∀ p s g a pr : ℚ,
      get_remedial_suggestions 1 p s g a pr =
        preambleBlock p
        ++ (if s < 45 then scoreObsBlock else [])
        ++ (if g < 70 then gradeObsBlock else [])
        ++ (if a < 85 then attendanceObsBlock else [])
        ++ (if pr ≤ 2 then participationObsBlock else [])
        ++ (if s < 45 ∨ g < 70 ∨ a < 85 ∨ pr ≤ 2 then [] else [fallbackLine])
        ++ closingBlock)
    ∧ (∀ p : ℚ,
      get_remedial_suggestions 1 p 30 60 80 1 =
        preambleBlock p ++ scoreObsBlock ++ gradeObsBlock
        ++ attendanceObsBlock ++ participationObsBlock ++ closingBlock) :=
  ⟨get_remedial_suggestions_one, fun p => by
    rw [get_remedial_suggestions_one]
    norm_num⟩

/-- C5 counterexample: with grade 90, attendance 90, participation 5 (no
other threshold triggered) and probability 1/2, moving the score from 50 to
40 does NOT change the output by inserting the score-observation block: no
split of the score-50 output admits such an insertion, because the score-40
output also drops the fallback line (it is one element longer, not two). -/
theorem C5_counterexample :
    ¬ ∃ u v : List String,
      get_remedial_suggestions 1 (1/2) 50 90 90 5 = u ++ v ∧
      get_remedial_suggestions 1 (1/2) 40 90 90 5 = u ++ scoreObsBlock ++ v := by
  have L1 : (get_remedial_suggestions 1 (1/2) 50 90 90 5).length = 13 := by
    rw [get_remedial_suggestions_one]
    norm_num [preambleBlock, preambleTail, closingBlock]
  have L2 : (get_remedial_suggestions 1 (1/2) 40 90 90 5).length = 14 := by
    rw [get_remedial_suggestions_one]
    norm_num [preambleBlock, preambleTail, closingBlock, scoreObsBlock]
  rintro ⟨u, v, h1, h2⟩
  have e1 := congrArg List.length h1
  have e2 := congrArg List.length h2
  rw [L1] at e1
  rw [L2] at e2
  simp only [List.length_append, scoreObsBlock, List.length_cons,
    List.length_nil] at e1 e2
  omega

/-- C5 amended: when at least one of the other three thresholds triggers,
decreasing the score across the 45 boundary changes the output exactly by
inserting the score-observation block once, after the preamble and before
the other blocks, with no duplication (the observation line occurs exactly
once afterwards and did not occur before); when no other threshold
triggers, the insertion additionally replaces the fallback line, as the
counterexample shows. -/
theorem C5_amended_insertion (p s1 s2 g a pr : ℚ) (h1 : ¬ s1 < 45)
    (h2 : s2 < 45) (hother : g < 70 ∨ a < 85 ∨ pr ≤ 2) :
    ∃ u v : List String,
      get_remedial_suggestions 1 p s1 g a pr = u ++ v ∧
      get_remedial_suggestions 1 p s2 g a pr = u ++ scoreObsBlock ++ v ∧
      (get_remedial_suggestions 1 p s2 g a pr).count
          "* *Observation:* Low Standardized Test Score." = 1 ∧
      (get_remedial_suggestions 1 p s1 g a pr).count
          "* *Observation:* Low Standardized Test Score." = 0 := by
  have hd1 : s1 < 45 ∨ g < 70 ∨ a < 85 ∨ pr ≤ 2 := Or.inr hother
  have hd2 : s2 < 45 ∨ g < 70 ∨ a < 85 ∨ pr ≤ 2 := Or.inl h2
  have hpre : (preambleBlock p).count
      "* *Observation:* Low Standardized Test Score." = 0 := by
    rw [count_preambleBlock p _ (Ne.symm (supportHeadline_ne p _ (by decide)))]
    decide
  refine ⟨preambleBlock p,
    (if g < 70 then gradeObsBlock else []) ++
      (if a < 85 then attendanceObsBlock else []) ++
      (if pr ≤ 2 then participationObsBlock else []) ++ closingBlock,
    ?_, ?_, ?_, ?_⟩
  · rw [get_remedial_suggestions_one, if_neg h1, if_pos hd1]
    simp
  · rw [get_remedial_suggestions_one, if_pos h2, if_pos hd2]
    simp
  · rw [get_remedial_suggestions_one]
    simp only [List.count_append, hpre, h2, hd2, if_true, iff_true]
    split_ifs <;> simp_all <;> decide
  · rw [get_remedial_suggestions_one]
    simp only [List.count_append, hpre, h1, hd1, if_true, iff_true]
    split_ifs <;> simp_all <;> decide

/-- C5 witness for the amended insertion at probability 1/2, scores 50 and
40, grade 60, attendance 90, participation 5. -/
theorem C5_amended_witness :
    ∃ u v : List String,
      get_remedial_suggestions 1 (1/2) 50 60 90 5 = u ++ v ∧
      get_remedial_suggestions 1 (1/2) 40 60 90 5 = u ++ scoreObsBlock ++ v ∧
      (get_remedial_suggestions 1 (1/2) 40 60 90 5).count
          "* *Observation:* Low Standardized Test Score." = 1 ∧
      (get_remedial_suggestions 1 (1/2) 50 60 90 5).count
          "* *Observation:* Low Standardized Test Score." = 0 :=
  C5_amended_insertion (1/2) 50 40 60 90 5 (by norm_num) (by norm_num)
    (Or.inl (by norm_num))

/-- C6: for every label-1 input the advisory list contains the fallback
line exactly once if and only if none of the four threshold conditions
holds (and it never contains it otherwise). -/
theorem C6_fallback_iff (p s g a pr : ℚ) :
    (get_remedial_suggestions 1 p s g a pr).count fallbackLine = 1 ↔
      ¬ (s < 45 ∨ g < 70 ∨ a < 85 ∨ pr ≤ 2) := by
  have hpre : (preambleBlock p).count fallbackLine = 0 := by
    rw [count_preambleBlock p _ (Ne.symm (supportHeadline_ne p _ (by decide)))]
    decide
  rw [get_remedial_suggestions_one]
  simp only [List.count_append, hpre]
  split_ifs <;> simp_all <;> decide

/-- C7: if either the scaler or the classifier argument is null,
`predict_slow_learner` returns a null label and a null probability. -/
theorem C7_null_artifacts (data : FeatureVector) (scaler_obj : Option Scaler)
    (model_obj : Option Model) (h : scaler_obj = none ∨ model_obj = none) :
    predict_slow_learner data scaler_obj model_obj = (none, none) := by
  obtain h | h := h <;> subst h
  · cases model_obj <;> rfl
  · cases scaler_obj <;> rfl

/-- C7 witness: both artifacts null gives the null result. -/
theorem C7_witness :
    ((none : Option Scaler) = none ∨ (none : Option Model) = none) ∧
      predict_slow_learner ⟨50, 75, 90, 2, 3⟩ none none = (none, none) :=
  ⟨Or.inl rfl, C7_null_artifacts ⟨50, 75, 90, 2, 3⟩ none none (Or.inl rfl)⟩

/-- C8: `load_artifacts` returns either both artifacts non-null or both
null; partial loading never occurs. -/
theorem C8_all_or_nothing (scalerLoad : JoblibOutcome Scaler)
    (modelLoad : JoblibOutcome Model) :
    (∃ s m, (load_artifacts scalerLoad modelLoad).1 = (some s, some m)) ∨
      (load_artifacts scalerLoad modelLoad).1 = (none, none) := by
  cases scalerLoad <;> cases modelLoad <;> simp [load_artifacts]

/-- C9: when a load raises `FileNotFoundError` (the scaler load, or the
model load after the scaler loaded), the loader returns `(null, null)` and
signals the missing-artifact condition, whose message names both expected
filenames (third conjunct spells the message out); when a load raises any
other exception, the loader returns `(null, null)` and signals the
corrupt-artifact condition carrying the underlying cause. -/
theorem C9_error_signals (scalerLoad : JoblibOutcome Scaler)
    (modelLoad : JoblibOutcome Model) :
    ((scalerLoad = .fileNotFound ∨
        (∃ s, scalerLoad = .ok s ∧ modelLoad = .fileNotFound)) →
      load_artifacts scalerLoad modelLoad =
        ((none, none), some (.missingArtifact missingMessage)))
    ∧ (∀ e : String, (scalerLoad = .failure e ∨
        (∃ s, scalerLoad = .ok s ∧ modelLoad = .failure e)) →
      load_artifacts scalerLoad modelLoad =
        ((none, none),
          some (.corruptArtifact ("Error loading artifacts: " ++ e))))
    ∧ missingMessage =
        "Error: Could not find \x27scaler.joblib\x27 or \x27random_forest_model.joblib\x27. Ensure they are in the app directory." := by
  refine ⟨?_, ?_, rfl⟩
  · rintro (rfl | ⟨s, rfl, rfl⟩) <;> rfl
  · rintro e (rfl | ⟨s, rfl, rfl⟩) <;> rfl

/-- C9 witness: an absent scaler file produces the null pair and the
missing-artifact signal. -/
theorem C9_witness :
    load_artifacts (.fileNotFound) (.ok ⟨fun _ => 0, fun _ => [0, 0]⟩) =
      ((none, none), some (.missingArtifact missingMessage)) :=
  (C9_error_signals _ _).1 (Or.inl rfl)

/-- C10: for label 1 the advisory list length is 12 plus 2 when the score
threshold triggers, plus 3 for the grade threshold, plus 2 for attendance,
plus 3 for participation, plus 1 when no threshold triggers. -/
theorem C10_length_formula (p s g a pr : ℚ) :
    (get_remedial_suggestions 1 p s g a pr).length =
      12 + (if s < 45 then 2 else 0) + (if g < 70 then 3 else 0)
        + (if a < 85 then 2 else 0) + (if pr ≤ 2 then 3 else 0)
        + (if s < 45 ∨ g < 70 ∨ a < 85 ∨ pr ≤ 2 then 0 else 1) := by
  rw [get_remedial_suggestions_one]
  split_ifs <;>
    simp [preambleBlock, preambleTail, scoreObsBlock, gradeObsBlock,
      attendanceObsBlock, participationObsBlock, closingBlock]

end SlowLearner
